import Mathlib

/-!
# Better Jamf Policy Deferral — verification of the deferral state machine

Shallow embedding of `better-jamf-policy-deferral.py`. The script has two
modes sharing one identity key (the LaunchDaemon label):

* prompt mode: guard checks, a user prompt via jamfHelper, conversion of the
  chosen deferral (seconds) into a LaunchDaemon schedule, and persistence of
  the LaunchDaemon plist;
* cleanup mode: removal of the persisted LaunchDaemon file.

External effects (console-user lookup, filesystem, subprocesses, the current
wall-clock time) are modelled as explicit inputs in an `Env` record; the
dialogs the script invokes are recorded as an event trace.
-/

namespace BJPD

/-! ## Configuration constants (head of the script) -/

def DEFAULT_LD_LABEL : String := "com.contoso.deferred-policy"

def DEFAULT_LD_JAMF_TRIGGER : String := "trigger_for_deferred_policy"

def BLOCKING_APPS : List String := ["Keynote", "Microsoft PowerPoint"]

def JAMF : String := "/usr/local/bin/jamf"

/-! ## Local wall-clock time

`datetime.datetime.now()` is modelled as the number of seconds since the Unix
epoch *in the host's local timezone* (an `Int`), so `now + timedelta(seconds=n)`
is plain integer addition.  The `strftime` field extractions are the standard
civil-calendar conversion; day-of-month uses the days-to-civil-date algorithm
for the proleptic Gregorian calendar.  All divisors are positive, so
`Int.ediv`/`Int.emod` agree with Python's floor division and nonnegative
remainder. -/

/-- Convert a count of days since 1970-01-01 to a civil `(year, month, day)`
date in the proleptic Gregorian calendar. -/
def civilFromDays (z0 : Int) : Int × Int × Int :=
  let z := z0 + 719468
  let era := Int.ediv z 146097
  let doe := z - era * 146097
  let yoe := Int.ediv (doe - Int.ediv doe 1460 + Int.ediv doe 36524 - Int.ediv doe 146096) 365
  let y := yoe + era * 400
  let doy := doe - (365 * yoe + Int.ediv yoe 4 - Int.ediv yoe 100)
  let mp := Int.ediv (5 * doy + 2) 153
  let d := doy - Int.ediv (153 * mp + 2) 5 + 1
  let m := mp + (if mp < 10 then 3 else -9)
  (y + (if m ≤ 2 then 1 else 0), m, d)

/-- `strftime("%d")` (then `int(...)`): day of the month of a local timestamp. -/
def dayOfTime (t : Int) : Int := (civilFromDays (Int.ediv t 86400)).2.2

/-- Month number (1–12) of a local timestamp (used by `strftime("%B")`). -/
def monthOfTime (t : Int) : Int := (civilFromDays (Int.ediv t 86400)).2.1

/-- `strftime("%-H")`: hour of the day (0–23) of a local timestamp. -/
def hourOfTime (t : Int) : Int := Int.emod (Int.ediv t 3600) 24

/-- `strftime("%-M")`: minute of the hour (0–59) of a local timestamp. -/
def minuteOfTime (t : Int) : Int := Int.emod (Int.ediv t 60) 60

/-- `strftime("%B")`: full month name. -/
def monthName (m : Int) : String :=
  if m = 1 then "January" else if m = 2 then "February" else if m = 3 then "March"
  else if m = 4 then "April" else if m = 5 then "May" else if m = 6 then "June"
  else if m = 7 then "July" else if m = 8 then "August" else if m = 9 then "September"
  else if m = 10 then "October" else if m = 11 then "November" else "December"

/-- `strftime("%-I")`: hour on the 12-hour clock, no leading zero. -/
def hour12 (h : Int) : Int :=
  let r := Int.emod h 12
  if r = 0 then 12 else r

/-- `strftime("%p")`: AM/PM marker. -/
def ampm (h : Int) : String := if h < 12 then "AM" else "PM"

/-- `strftime("%M")`: zero-padded minute. -/
def twoDigit (n : Int) : String :=
  if n < 10 then "0" ++ toString n else toString n

/-- `future.strftime("%B %-d at %-I:%M %p")`: the human-readable rendering. -/
def datestringOf (t : Int) : String :=
  monthName (monthOfTime t) ++ " " ++ toString (dayOfTime t) ++ " at "
    ++ toString (hour12 (hourOfTime t)) ++ ":" ++ twoDigit (minuteOfTime t)
    ++ " " ++ ampm (hourOfTime t)

/-- `calculate_deferment(add_seconds)`: returns the day of the month, hour,
minute and human-readable date of `now + add_seconds` seconds, `now` taken
once at the moment of the call. -/
def calculate_deferment (now add_seconds : Int) : Int × Int × Int × String :=
  let future := now + add_seconds
  (dayOfTime future, hourOfTime future, minuteOfTime future, datestringOf future)

/-! ## Python primitives

`int(s)` on a string and `s[:-1]` are modelled over the character list of the
string.  Python's `int` strips surrounding whitespace, accepts an optional
sign and then one or more decimal digits, and raises `ValueError` otherwise
(the digit-group underscore extension is not modelled; no caller produces
underscores). -/

/-- Characters `str.strip()` removes. -/
def pyIsSpace (c : Char) : Bool :=
  c = ' ' ∨ c = '\t' ∨ c = '\n' ∨ c = '\r' ∨ c = '\x0b' ∨ c = '\x0c'

/-- One-or-more decimal digits to their value. -/
def digitsVal (cs : List Char) : Nat :=
  cs.foldl (fun a c => a * 10 + (c.toNat - '0'.toNat)) 0

/-- Parse an optionally signed nonempty digit string. -/
def parseSigned (cs : List Char) : Option Int :=
  match cs with
  | [] => none
  | '-' :: rest =>
      if rest ≠ [] ∧ rest.all Char.isDigit then some (-(digitsVal rest : Int)) else none
  | '+' :: rest =>
      if rest ≠ [] ∧ rest.all Char.isDigit then some (digitsVal rest : Int) else none
  | _ => if cs.all Char.isDigit then some (digitsVal cs : Int) else none

/-- Python `int(s)` for a decimal string: `some n` on success, `none` where
Python raises `ValueError`. -/
def pyInt (s : String) : Option Int :=
  parseSigned (((s.data.dropWhile pyIsSpace).reverse.dropWhile pyIsSpace).reverse)

/-- Python `s[:-1]`: the string without its final character. -/
def dropLastChar (s : String) : String := ⟨s.data.dropLast⟩

/-! ## Prompt decoding (`display_prompt`)

The jamfHelper subprocess is modelled by two inputs: whether invoking it
succeeded at the transport level (`Popen`/`communicate` did not raise), and
the raw decoded stdout string.  The body of the `try:` block is given
exception-style semantics (`Except`): `int(out[:-1])` on a non-numeric
remainder raises `ValueError`, and the bare `except:` converts any raised
exception into the `None` return. -/

/-- Exceptions the `try:` block of `display_prompt` can raise. -/
inductive PyExn where
  | valueError
  | osError
  deriving DecidableEq, Repr

/-- The fixed jamfHelper sentinel table of `display_prompt`. -/
def error_values : List String := ["2", "3", "239", "243", "250", "255"]

/-- The body of `display_prompt`'s `try:` block after `out` is obtained:
`Except.ok r` models `return r` (with `none` for Python `None`), and
`Except.error` models an uncaught exception inside the block. -/
def promptBody (out : String) : Except PyExn (Option Int) :=
  if out ∈ error_values then
    Except.ok none
  else if out = "1" then
    Except.ok (some 0)
  else
    match pyInt (dropLastChar out) with
    | some n => Except.ok (some n)
    | none => Except.error PyExn.valueError

/-- `display_prompt()`: `some secs` is the number of seconds the user chose,
`none` models the Python `None` return (an error occurred).  `transportOk`
is false when launching jamfHelper itself raises (`OSError` etc.). -/
def display_prompt (transportOk : Bool) (out : String) : Option Int :=
  if transportOk then
    match promptBody out with
    | Except.ok r => r
    | Except.error _ => none
  else
    none

/-! ## Blocking-app detection -/

/-- `detect_blocking_apps()`: folds over `BLOCKING_APPS` setting a flag when a
configured name occurs (exact, case-sensitive) in the running-application
names supplied by NSWorkspace. -/
def detect_blocking_apps (running_apps : List String) : Bool :=
  BLOCKING_APPS.foldl
    (fun blocking_app_running app =>
      if running_apps.contains app then true else blocking_app_running)
    false

/-! ## The LaunchDaemon record

The `daemon` dict of `main()`.  `runAtLoad` and `startCalendarInterval`
model the two optional keys: exactly the keys the code inserts are `some`. -/

/-- The `StartCalendarInterval` sub-dict. -/
structure CalendarInterval where
  day : Int
  hour : Int
  minute : Int
  deriving DecidableEq, Repr

/-- The LaunchDaemon job definition dict, field per key. -/
structure Daemon where
  label : String
  userName : String
  groupName : String
  launchOnlyOnce : Bool
  programArguments : List String
  runAtLoad : Option Bool
  startCalendarInterval : Option CalendarInterval
  deriving DecidableEq, Repr

/-! ## Argument coercion and the LaunchDaemon path -/

/-- Modes `main()` dispatches on. -/
inductive Mode where
  | prompt
  | cleanup
  deriving DecidableEq, Repr

/-- The `choices_with_default(['prompt', 'cleanup'], 'prompt')` argparse
action: a value outside the choice list coerces to the default `'prompt'`. -/
def parseMode (v : String) : Mode :=
  if v = "cleanup" then Mode.cleanup else Mode.prompt

/-- The coerced label: a blank `launchdaemon_label` argument falls back to
`DEFAULT_LD_LABEL` (main, lines 307–312). -/
def ld_label (labelArg : String) : String :=
  if labelArg = "" then DEFAULT_LD_LABEL else labelArg

/-- `ld_path = os.path.join('/Library/LaunchDaemons', '{}.plist'.format(ld_label))`
(the label is a relative path component, so `os.path.join` concatenates). -/
def ld_path (labelArg : String) : String :=
  "/Library/LaunchDaemons/" ++ ld_label labelArg ++ ".plist"

/-- The coerced policy trigger: a blank `jamf_trigger` argument falls back to
`DEFAULT_LD_JAMF_TRIGGER` (main, lines 342–347). -/
def policy_trigger (triggerArg : String) : String :=
  if triggerArg = "" then DEFAULT_LD_JAMF_TRIGGER else triggerArg

/-- The `daemon` dict built in prompt mode (main, lines 350–371).  NOTE: the
`Label` key is set from the raw `args.launchdaemon_label`, not from the
coerced `ld_label` used for the file path. -/
def mkDaemon (labelArg trigger : String) (now secs : Int) : Daemon :=
  let base : Daemon :=
    { label := labelArg
      userName := "root"
      groupName := "wheel"
      launchOnlyOnce := true
      programArguments := [JAMF, "policy", "-event", trigger]
      runAtLoad := none
      startCalendarInterval := none }
  if secs = 0 then
    { base with runAtLoad := some true }
  else
    let r := calculate_deferment now secs
    { base with startCalendarInterval := some ⟨r.1, r.2.1, r.2.2.1⟩ }

/-! ## Persistence (`write_launchdaemon`) -/

/-- The four effectful steps of `write_launchdaemon`, in source order. -/
inductive Step where
  | serialize
  | chmod
  | chown
  | load
  deriving DecidableEq, Repr

/-- The state of the file at `ld_path` on disk. -/
inductive FileState where
  | absent
  | preexisting
  | failed
  | record (d : Daemon)
  deriving DecidableEq, Repr

/-- Outcomes of the four steps, supplied by the environment: whether
`plistlib.dump` raised `IOError`, whether `os.chmod`/`os.chown` raised, and
whether `launchctl load` returned a nonzero code. -/
structure WriteEnv where
  writeOk : Bool
  chmodOk : Bool
  chownOk : Bool
  loadOk : Bool
  deriving DecidableEq, Repr

/-- Result of `write_launchdaemon`: the aggregated success flag, the steps
that were attempted, and the file left at `path`. -/
structure WriteResult where
  success : Bool
  attempted : List Step
  file : FileState
  deriving DecidableEq, Repr

/-- `write_launchdaemon(job_definition, path)`: each step runs inside its own
`try`/check, so all four are attempted whatever failed before; `success`
starts `True` and each failure clears it; nothing removes the file again. -/
def write_launchdaemon (we : WriteEnv) (job_definition : Daemon) : WriteResult :=
  let success := true
  let fileAfter := if we.writeOk then FileState.record job_definition else FileState.failed
  let success := if we.writeOk then success else false
  let success := if we.chmodOk then success else false
  let success := if we.chownOk then success else false
  let success := if we.loadOk then success else false
  { success := success
    attempted := [Step.serialize, Step.chmod, Step.chown, Step.load]
    file := fileAfter }

/-! ## The environment of one invocation of `main()` -/

/-- Everything `main()` observes from the outside world, fixed for one run:
the console user (`SCDynamicStoreCopyConsoleUser`, `none` when nobody is
logged in), whether a file already exists at `ld_path`, the running
application names, the jamfHelper transport outcome and raw stdout, the
persistence step outcomes, whether `os.remove` raises `OSError` in cleanup
mode, the local wall-clock time, and the script arguments. -/
structure Env where
  consoleuser : Option String
  recordExists : Bool
  runningApps : List String
  promptTransportOk : Bool
  promptRaw : String
  writeOk : Bool
  chmodOk : Bool
  chownOk : Bool
  loadOk : Bool
  removeFails : Bool
  now : Int
  labelArg : String
  triggerArg : String
  deriving DecidableEq, Repr

/-- Python truthiness of the console-user value: `if not consoleuser:` is
taken when the lookup returned `None` or an empty string. -/
def pyFalsy (u : Option String) : Bool :=
  match u with
  | none => true
  | some s => s = ""

/-- The guard-denial reasons of prompt mode. -/
inductive Reason where
  | no_session
  | already_deferred
  | blocked_by_app
  deriving DecidableEq, Repr

/-- Spec contract §4.1 `may_prompt(label) -> Allowed | Denied(reason)`:
the three checks in the stated order — no interactive session, an existing
deferral record, a running blocking application — short-circuiting on the
first failure.  `none` is `Allowed`. -/
def may_prompt (e : Env) : Option Reason :=
  if pyFalsy e.consoleuser then some Reason.no_session
  else if e.recordExists then some Reason.already_deferred
  else if detect_blocking_apps e.runningApps then some Reason.blocked_by_app
  else none

/-- The dialogs the script can invoke via jamfHelper. -/
inductive Dialog where
  | prompt
  | confirm
  | error
  deriving DecidableEq, Repr

/-- Reaper outcomes in cleanup mode. -/
inductive CleanupOutcome where
  | removed
  | removeError
  | notFound
  deriving DecidableEq, Repr

/-- Observable result of one run of `main()`: the `sys.exit` code, the
dialog invocations in order, which guard (if any) denied, the state of the
file at `ld_path` afterwards, the `daemon` dict if one was built, and the
cleanup outcome if cleanup mode ran. -/
structure RunResult where
  exitCode : Nat
  dialogs : List Dialog
  denial : Option Reason
  file : FileState
  record : Option Daemon
  cleanupOutcome : Option CleanupOutcome
  deriving DecidableEq, Repr

/-- The file at `ld_path` before the run. -/
def initFile (e : Env) : FileState :=
  if e.recordExists then FileState.preexisting else FileState.absent

/-- Prompt mode of `main()` (lines 316–383), in source order: the three
guards each `sys.exit(1)` before any dialog; then `display_prompt`; a `None`
choice shows the error dialog and exits 1; otherwise the `daemon` dict is
built, `write_launchdaemon` runs, and on success the confirmation dialog is
shown only for a strictly positive deferral before `sys.exit(0)`, while on
failure the error dialog is shown and the exit code is 1. -/
def runPrompt (e : Env) : RunResult :=
  if pyFalsy e.consoleuser then
    { exitCode := 1, dialogs := [], denial := some Reason.no_session
      file := initFile e, record := none, cleanupOutcome := none }
  else if e.recordExists then
    { exitCode := 1, dialogs := [], denial := some Reason.already_deferred
      file := initFile e, record := none, cleanupOutcome := none }
  else if detect_blocking_apps e.runningApps then
    { exitCode := 1, dialogs := [], denial := some Reason.blocked_by_app
      file := initFile e, record := none, cleanupOutcome := none }
  else
    match display_prompt e.promptTransportOk e.promptRaw with
    | none =>
        { exitCode := 1, dialogs := [Dialog.prompt, Dialog.error], denial := none
          file := initFile e, record := none, cleanupOutcome := none }
    | some secs =>
        let daemon := mkDaemon e.labelArg (policy_trigger e.triggerArg) e.now secs
        let w := write_launchdaemon ⟨e.writeOk, e.chmodOk, e.chownOk, e.loadOk⟩ daemon
        if w.success then
          { exitCode := 0
            dialogs := [Dialog.prompt] ++ (if 0 < secs then [Dialog.confirm] else [])
            denial := none, file := w.file, record := some daemon
            cleanupOutcome := none }
        else
          { exitCode := 1, dialogs := [Dialog.prompt, Dialog.error], denial := none
            file := w.file, record := some daemon, cleanupOutcome := none }

/-- Cleanup mode of `main()` (lines 385–405): when the file exists, `os.remove`
is attempted with `OSError` caught and only logged, then `sys.exit(0)`; when
it does not exist, that is logged and the exit code is still 0. -/
def runCleanup (e : Env) : RunResult :=
  if e.recordExists then
    if e.removeFails then
      { exitCode := 0, dialogs := [], denial := none
        file := FileState.preexisting, record := none
        cleanupOutcome := some CleanupOutcome.removeError }
    else
      { exitCode := 0, dialogs := [], denial := none
        file := FileState.absent, record := none
        cleanupOutcome := some CleanupOutcome.removed }
  else
    { exitCode := 0, dialogs := [], denial := none
      file := FileState.absent, record := none
      cleanupOutcome := some CleanupOutcome.notFound }

/-- `main()`: dispatch on the (coerced) mode. -/
def runMain (m : Mode) (e : Env) : RunResult :=
  match m with
  | Mode.prompt => runPrompt e
  | Mode.cleanup => runCleanup e

/-- Reading the persisted plist back: `plistlib` round-trips the dict, so a
successfully written file reads back as its record; a failed write or a
missing file has no well-formed record to read. -/
def readBack (f : FileState) : Option Daemon :=
  match f with
  | FileState.record d => some d
  | _ => none

/-- Whether a file is present at `ld_path` after a run. -/
def fileExists (f : FileState) : Bool :=
  match f with
  | FileState.absent => false
  | _ => true

/-- The environment as the next invocation sees it: the existence check of
the next run observes the file state this run left behind. -/
def afterRun (e : Env) (r : RunResult) : Env :=
  { e with recordExists := fileExists r.file }

/-- All four persistence steps succeeded. -/
def persistOk (e : Env) : Bool :=
  e.writeOk && e.chmodOk && e.chownOk && e.loadOk

/-! ## Concrete environments used by witnesses and counterexamples -/

/-- A logged-out environment (guard 1 fires). -/
def envNoSession : Env :=
  { consoleuser := none, recordExists := true, runningApps := ["Keynote"]
    promptTransportOk := true, promptRaw := "36001"
    writeOk := true, chmodOk := true, chownOk := true, loadOk := true
    removeFails := false, now := 1700000000
    labelArg := "test.pending", triggerArg := "go" }

/-- A happy-path environment whose dialog returns the `"1"` sentinel. -/
def envStartNow : Env :=
  { consoleuser := some "alice", recordExists := false, runningApps := ["Finder"]
    promptTransportOk := true, promptRaw := "1"
    writeOk := true, chmodOk := true, chownOk := true, loadOk := true
    removeFails := false, now := 1700000000
    labelArg := "test.pending", triggerArg := "go" }

/-- Guards clear, the dialog succeeds, but `launchctl load` fails. -/
def envLoadFails : Env :=
  { consoleuser := some "alice", recordExists := false, runningApps := ["Finder"]
    promptTransportOk := true, promptRaw := "36001"
    writeOk := true, chmodOk := true, chownOk := true, loadOk := false
    removeFails := false, now := 1700000000
    labelArg := "test.pending", triggerArg := "go" }

/-- A pending record whose removal succeeds. -/
def envCleanup : Env :=
  { consoleuser := some "alice", recordExists := true, runningApps := []
    promptTransportOk := true, promptRaw := "36001"
    writeOk := true, chmodOk := true, chownOk := true, loadOk := true
    removeFails := false, now := 1700000000
    labelArg := "test.pending", triggerArg := "go" }

/-- A pending record whose removal raises `OSError`. -/
def envCleanupFails : Env :=
  { envCleanup with removeFails := true }

/-- A blank label argument, as Jamf passes for an omitted parameter, on an
otherwise happy path. -/
def envBlankLabel : Env :=
  { envStartNow with labelArg := "", triggerArg := "" }

/-- A running blocking application (Keynote) with a user logged in and no
pending record. -/
def envBlocked : Env :=
  { envStartNow with runningApps := ["Keynote", "Finder"] }

/-! ## Helper lemmas -/

/-- `write_launchdaemon` attempts every step, whatever failed before. -/
theorem write_attempts_all (we : WriteEnv) (d : Daemon) :
    (write_launchdaemon we d).attempted =
      [Step.serialize, Step.chmod, Step.chown, Step.load] := rfl

/-- The aggregated success flag is the conjunction of the four steps. -/
theorem write_success_iff (we : WriteEnv) (d : Daemon) :
    (write_launchdaemon we d).success =
      (we.writeOk && we.chmodOk && we.chownOk && we.loadOk) := by
  rcases we with ⟨w, c1, c2, l⟩
  cases w <;> cases c1 <;> cases c2 <;> cases l <;> rfl

/-- The file left behind depends only on the serialization step. -/
theorem write_file_eq (we : WriteEnv) (d : Daemon) :
    (write_launchdaemon we d).file =
      (if we.writeOk then FileState.record d else FileState.failed) := rfl

/-- `may_prompt` allows exactly when all three guard conditions are clear. -/
theorem may_prompt_none_iff (e : Env) :
    may_prompt e = none ↔
      pyFalsy e.consoleuser = false ∧ e.recordExists = false ∧
        detect_blocking_apps e.runningApps = false := by
  unfold may_prompt
  cases hpf : pyFalsy e.consoleuser <;> cases hre : e.recordExists <;>
    cases hba : detect_blocking_apps e.runningApps <;> simp

/-- With all guards clear, `runPrompt` is the prompt/persist tail. -/
theorem runPrompt_guards_ok (e : Env)
    (h1 : pyFalsy e.consoleuser = false) (h2 : e.recordExists = false)
    (h3 : detect_blocking_apps e.runningApps = false) :
    runPrompt e =
      match display_prompt e.promptTransportOk e.promptRaw with
      | none =>
          { exitCode := 1, dialogs := [Dialog.prompt, Dialog.error], denial := none
            file := FileState.absent, record := none, cleanupOutcome := none }
      | some secs =>
          let daemon := mkDaemon e.labelArg (policy_trigger e.triggerArg) e.now secs
          let w := write_launchdaemon ⟨e.writeOk, e.chmodOk, e.chownOk, e.loadOk⟩ daemon
          if w.success then
            { exitCode := 0
              dialogs := [Dialog.prompt] ++ (if 0 < secs then [Dialog.confirm] else [])
              denial := none, file := w.file, record := some daemon
              cleanupOutcome := none }
          else
            { exitCode := 1, dialogs := [Dialog.prompt, Dialog.error], denial := none
              file := w.file, record := some daemon, cleanupOutcome := none } := by
  unfold runPrompt
  simp [h1, h2, h3, initFile]

/-- A denied guard exits 1 with no dialog and no record built. -/
theorem runPrompt_denied (e : Env) (r : Reason) (h : may_prompt e = some r) :
    (runPrompt e).exitCode = 1 ∧ (runPrompt e).dialogs = [] ∧
      (runPrompt e).record = none ∧ (runPrompt e).file = initFile e := by
  unfold may_prompt at h
  unfold runPrompt
  cases hpf : pyFalsy e.consoleuser <;> rw [hpf] at h <;>
    cases hre : e.recordExists <;> rw [hre] at h <;>
      cases hba : detect_blocking_apps e.runningApps <;> rw [hba] at h <;>
        simp_all

/-- Every sentinel in the fixed table decodes to the `None` failure. -/
theorem display_prompt_of_sentinel (v : String) (hv : v ∈ error_values) :
    display_prompt true v = none := by
  fin_cases hv <;> rfl

/-- Any daemon dict `runPrompt` builds is `mkDaemon` at some decoded choice. -/
theorem runPrompt_record (e : Env) (d : Daemon)
    (h : (runPrompt e).record = some d) :
    ∃ secs : Int,
      display_prompt e.promptTransportOk e.promptRaw = some secs ∧
        d = mkDaemon e.labelArg (policy_trigger e.triggerArg) e.now secs := by
  unfold runPrompt at h
  by_cases h1 : pyFalsy e.consoleuser = true
  · simp [h1] at h
  · by_cases h2 : e.recordExists = true
    · simp [h1, h2] at h
    · by_cases h3 : detect_blocking_apps e.runningApps = true
      · simp [h1, h2, h3] at h
      · simp only [h1, h2, h3, if_neg, Bool.false_eq_true, if_false] at h
        cases hd : display_prompt e.promptTransportOk e.promptRaw with
        | none => rw [hd] at h; simp at h
        | some secs =>
            rw [hd] at h
            refine ⟨secs, rfl, ?_⟩
            by_cases hs : (write_launchdaemon
                ⟨e.writeOk, e.chmodOk, e.chownOk, e.loadOk⟩
                (mkDaemon e.labelArg (policy_trigger e.triggerArg) e.now secs)).success = true
            · simp [hs] at h; exact h.symm
            · simp [hs] at h; exact h.symm

/-- The fixed fields of every daemon dict, and its schedule shape. -/
theorem mkDaemon_fields (labelArg trigger : String) (now secs : Int) :
    (mkDaemon labelArg trigger now secs).label = labelArg ∧
    (mkDaemon labelArg trigger now secs).userName = "root" ∧
    (mkDaemon labelArg trigger now secs).groupName = "wheel" ∧
    (mkDaemon labelArg trigger now secs).launchOnlyOnce = true ∧
    (mkDaemon labelArg trigger now secs).programArguments =
      ["/usr/local/bin/jamf", "policy", "-event", trigger] ∧
    ((secs = 0 ∧ (mkDaemon labelArg trigger now secs).runAtLoad = some true ∧
        (mkDaemon labelArg trigger now secs).startCalendarInterval = none) ∨
     (secs ≠ 0 ∧ (mkDaemon labelArg trigger now secs).runAtLoad = none ∧
        (mkDaemon labelArg trigger now secs).startCalendarInterval =
          some ⟨dayOfTime (now + secs), hourOfTime (now + secs),
                minuteOfTime (now + secs)⟩)) := by
  unfold mkDaemon
  by_cases h : secs = 0 <;> simp [h, calculate_deferment, JAMF]

/-! ## Claims -/

/-- C1: In prompt mode the three guard checks run in the fixed order
(1) no interactive user session, (2) a deferral record already exists for
the label, (3) a configured blocking application is running,
short-circuiting on the first failure; any guard denial makes the process
exit 1 without ever invoking the dialog.  (`may_prompt` is the spec's
ordered short-circuit contract; `runPrompt` embeds the code.) -/
theorem C1_guard_order (e : Env) :
    (runPrompt e).denial = may_prompt e ∧
    (∀ r : Reason, may_prompt e = some r →
      (runPrompt e).exitCode = 1 ∧ (runPrompt e).dialogs = []) := by
  constructor
  · unfold runPrompt may_prompt
    by_cases h1 : pyFalsy e.consoleuser = true
    · simp [h1]
    · by_cases h2 : e.recordExists = true
      · simp [h1, h2]
      · by_cases h3 : detect_blocking_apps e.runningApps = true
        · simp [h1, h2, h3]
        · simp only [h1, h2, h3, Bool.false_eq_true, if_false]
          cases hd : display_prompt e.promptTransportOk e.promptRaw with
          | none => simp
          | some secs =>
              by_cases hs : (write_launchdaemon
                  ⟨e.writeOk, e.chmodOk, e.chownOk, e.loadOk⟩
                  (mkDaemon e.labelArg (policy_trigger e.triggerArg)
                    e.now secs)).success = true <;>
                simp [hs]
  · intro r h
    exact ⟨(runPrompt_denied e r h).1, (runPrompt_denied e r h).2.1⟩

theorem C1_guard_order_witness :
    (runPrompt envNoSession).exitCode = 1 ∧ (runPrompt envNoSession).dialogs = [] :=
  (C1_guard_order envNoSession).2 Reason.no_session (by decide)

/-- C2: Trigger conversion maps a chosen deferral of 0 seconds to the
immediate schedule (`RunAtLoad`), and for every `n > 0` it maps `n` to a
calendar trigger whose day, hour and minute equal the local wall-clock
day-of-month, hour and minute of `now + n` seconds, `now` taken once at
conversion time. -/
theorem C2_trigger_conversion (labelArg trigger : String) (now n : Int) :
    (mkDaemon labelArg trigger now 0).runAtLoad = some true ∧
    (mkDaemon labelArg trigger now 0).startCalendarInterval = none ∧
    (0 < n →
      (mkDaemon labelArg trigger now n).runAtLoad = none ∧
      (mkDaemon labelArg trigger now n).startCalendarInterval =
        some ⟨dayOfTime (now + n), hourOfTime (now + n), minuteOfTime (now + n)⟩) := by
  refine ⟨rfl, rfl, fun hn => ?_⟩
  rcases mkDaemon_fields labelArg trigger now n with ⟨-, -, -, -, -, hsch⟩
  rcases hsch with ⟨h0, -, -⟩ | ⟨-, hra, hsc⟩
  · omega
  · exact ⟨hra, hsc⟩

theorem C2_trigger_conversion_witness :
    (0 : Int) < 3600 ∧
      (mkDaemon "test.pending" "go" 1700000000 3600).startCalendarInterval =
        some ⟨14, 23, 13⟩ :=
  ⟨by decide,
   ((C2_trigger_conversion "test.pending" "go" 1700000000 3600).2.2
      (by decide)).2.trans (by decide)⟩

/-- C5: For every label, invoking cleanup twice in a row on an existing
record (whose deletion succeeds) yields `Removed` on the first invocation
and `NotFound` on the second, and both invocations terminate with exit
code 0; the not-found case is not an error. -/
theorem C5_cleanup_idempotent (e : Env)
    (h1 : e.recordExists = true) (h2 : e.removeFails = false) :
    (runMain Mode.cleanup e).cleanupOutcome = some CleanupOutcome.removed ∧
    (runMain Mode.cleanup e).exitCode = 0 ∧
    (runMain Mode.cleanup (afterRun e (runMain Mode.cleanup e))).cleanupOutcome =
      some CleanupOutcome.notFound ∧
    (runMain Mode.cleanup (afterRun e (runMain Mode.cleanup e))).exitCode = 0 := by
  simp [runMain, runCleanup, afterRun, fileExists, h1, h2]

theorem C5_cleanup_idempotent_witness :
    (runMain Mode.cleanup envCleanup).cleanupOutcome = some CleanupOutcome.removed ∧
    (runMain Mode.cleanup envCleanup).exitCode = 0 ∧
    (runMain Mode.cleanup (afterRun envCleanup (runMain Mode.cleanup envCleanup))).cleanupOutcome =
      some CleanupOutcome.notFound ∧
    (runMain Mode.cleanup (afterRun envCleanup (runMain Mode.cleanup envCleanup))).exitCode = 0 :=
  C5_cleanup_idempotent envCleanup (by decide) (by decide)

/-- C9: Cleanup mode terminates with exit code 0 unconditionally: even when
the record file exists but its deletion raises an operating-system error,
the failure is only logged and the process still exits 0, the record file
remaining on disk. -/
theorem C9_cleanup_always_zero (e : Env) :
    (runMain Mode.cleanup e).exitCode = 0 ∧
    (e.recordExists = true → e.removeFails = true →
      (runMain Mode.cleanup e).cleanupOutcome = some CleanupOutcome.removeError ∧
      fileExists (runMain Mode.cleanup e).file = true) := by
  constructor
  · cases he : e.recordExists <;> cases hf : e.removeFails <;>
      simp [runMain, runCleanup, he, hf]
  · intro h1 h2
    simp [runMain, runCleanup, h1, h2, fileExists]

theorem C9_cleanup_always_zero_witness :
    (runMain Mode.cleanup envCleanupFails).exitCode = 0 ∧
    (runMain Mode.cleanup envCleanupFails).cleanupOutcome = some CleanupOutcome.removeError ∧
    fileExists (runMain Mode.cleanup envCleanupFails).file = true :=
  ⟨(C9_cleanup_always_zero envCleanupFails).1,
   (C9_cleanup_always_zero envCleanupFails).2 (by decide) (by decide)⟩

/-- C10: Prompt decoding is total over arbitrary raw dialog output: every
raw string outside the sentinel table and different from `"1"` is parsed as
the integer value of the string with its final character removed, and a
string on which that parse fails (for example an empty or non-numeric
remainder) is converted to `None` (prompt failure) — the raised
`ValueError` is caught, not propagated. -/
theorem C10_decode_total (s : String)
    (h1 : s ∉ error_values) (h2 : s ≠ "1") :
    display_prompt true s = pyInt (dropLastChar s) ∧
    (pyInt (dropLastChar s) = none →
      promptBody s = Except.error PyExn.valueError ∧ display_prompt true s = none) := by
  unfold display_prompt promptBody
  rw [if_pos rfl, if_neg h1, if_neg h2]
  cases hp : pyInt (dropLastChar s) <;> simp [hp]

theorem C10_decode_total_witness :
    display_prompt true "abc" = none ∧
      promptBody "abc" = Except.error PyExn.valueError :=
  ⟨((C10_decode_total "abc" (by decide) (by decide)).2 (by decide)).2,
   ((C10_decode_total "abc" (by decide) (by decide)).2 (by decide)).1⟩

/-- C3: The prompt decoding applies a fixed sentinel table to the raw dialog
output: raw `"1"` is the choice of 0 seconds (immediate schedule, no
confirmation dialog, exit 0 — given the persistence steps succeed), while
each raw value in `{"2", "3", "239", "243", "250", "255"}` is a prompt
failure, causing the generic error dialog, exit 1, and no record written. -/
theorem C3_sentinel_table (e : Env)
    (hg : may_prompt e = none) (ht : e.promptTransportOk = true) :
    (∀ v ∈ error_values, display_prompt true v = none) ∧
    (e.promptRaw = "1" → persistOk e = true →
      display_prompt true "1" = some 0 ∧
      (runPrompt e).record =
        some (mkDaemon e.labelArg (policy_trigger e.triggerArg) e.now 0) ∧
      (mkDaemon e.labelArg (policy_trigger e.triggerArg) e.now 0).runAtLoad = some true ∧
      (mkDaemon e.labelArg (policy_trigger e.triggerArg) e.now 0).startCalendarInterval
        = none ∧
      (runPrompt e).dialogs = [Dialog.prompt] ∧
      (runPrompt e).exitCode = 0) ∧
    (e.promptRaw ∈ error_values →
      (runPrompt e).dialogs = [Dialog.prompt, Dialog.error] ∧
      (runPrompt e).exitCode = 1 ∧
      (runPrompt e).file = FileState.absent ∧
      (runPrompt e).record = none) := by
  rcases (may_prompt_none_iff e).1 hg with ⟨h1, h2, h3⟩
  rw [runPrompt_guards_ok e h1 h2 h3]
  refine ⟨fun v hv => display_prompt_of_sentinel v hv, fun hraw hok => ?_, fun hraw => ?_⟩
  · rw [ht, hraw]
    have hd : display_prompt true "1" = some 0 := rfl
    rw [hd]
    have hs : (write_launchdaemon ⟨e.writeOk, e.chmodOk, e.chownOk, e.loadOk⟩
        (mkDaemon e.labelArg (policy_trigger e.triggerArg) e.now 0)).success = true := by
      rw [write_success_iff]; exact hok
    simp [hs]
    exact ⟨rfl, rfl⟩
  · have hd : display_prompt e.promptTransportOk e.promptRaw = none := by
      rw [ht]; exact display_prompt_of_sentinel e.promptRaw hraw
    rw [hd]
    exact ⟨rfl, rfl, rfl, rfl⟩

theorem C3_sentinel_table_witness :
    display_prompt true "243" = none ∧
    (runPrompt envStartNow).dialogs = [Dialog.prompt] ∧
    (runPrompt envStartNow).exitCode = 0 :=
  ⟨(C3_sentinel_table envStartNow (by decide) rfl).1 "243" (by decide),
   ((C3_sentinel_table envStartNow (by decide) rfl).2.1 rfl (by decide)).2.2.2.2.1,
   ((C3_sentinel_table envStartNow (by decide) rfl).2.1 rfl (by decide)).2.2.2.2.2⟩

/-- C4: Persistence attempts all of its steps (serialize the record, set
permissions, set ownership, activate the task) even when an earlier step
fails, aggregates any step failure into a single overall failure after which
the Scheduler shows the generic error dialog and exits 1, and never rolls
back a partially written record file: the file at `ld_path` after the run is
exactly what `write_launchdaemon` left there. -/
theorem C4_persistence (we : WriteEnv) (d : Daemon) (e : Env) (secs : Int)
    (hg : may_prompt e = none)
    (hd : display_prompt e.promptTransportOk e.promptRaw = some secs)
    (hw : persistOk e = false) :
    (write_launchdaemon we d).attempted =
      [Step.serialize, Step.chmod, Step.chown, Step.load] ∧
    (write_launchdaemon we d).success =
      (we.writeOk && we.chmodOk && we.chownOk && we.loadOk) ∧
    (runPrompt e).exitCode = 1 ∧
    (runPrompt e).dialogs = [Dialog.prompt, Dialog.error] ∧
    (runPrompt e).file =
      (write_launchdaemon ⟨e.writeOk, e.chmodOk, e.chownOk, e.loadOk⟩
        (mkDaemon e.labelArg (policy_trigger e.triggerArg) e.now secs)).file ∧
    (e.writeOk = false → (runPrompt e).file = FileState.failed) ∧
    (e.writeOk = true → (runPrompt e).file =
      FileState.record (mkDaemon e.labelArg (policy_trigger e.triggerArg) e.now secs)) := by
  rcases (may_prompt_none_iff e).1 hg with ⟨h1, h2, h3⟩
  rw [runPrompt_guards_ok e h1 h2 h3, hd]
  have hs : (write_launchdaemon ⟨e.writeOk, e.chmodOk, e.chownOk, e.loadOk⟩
      (mkDaemon e.labelArg (policy_trigger e.triggerArg) e.now secs)).success = false := by
    rw [write_success_iff]; exact hw
  simp only [hs, Bool.false_eq_true, if_false]
  refine ⟨write_attempts_all we d, write_success_iff we d, trivial, trivial, trivial, ?_, ?_⟩
  · intro hwo; rw [write_file_eq, hwo]; rfl
  · intro hwo; rw [write_file_eq, hwo]; rfl

theorem C4_persistence_witness :
    (runPrompt envLoadFails).exitCode = 1 ∧
    (runPrompt envLoadFails).dialogs = [Dialog.prompt, Dialog.error] ∧
    (runPrompt envLoadFails).file =
      FileState.record (mkDaemon envLoadFails.labelArg
        (policy_trigger envLoadFails.triggerArg) envLoadFails.now 3600) :=
  ⟨(C4_persistence ⟨true, true, true, false⟩
      (mkDaemon "test.pending" "go" 1700000000 3600) envLoadFails 3600
      (by decide) (by decide) (by decide)).2.2.1,
   (C4_persistence ⟨true, true, true, false⟩
      (mkDaemon "test.pending" "go" 1700000000 3600) envLoadFails 3600
      (by decide) (by decide) (by decide)).2.2.2.1,
   (C4_persistence ⟨true, true, true, false⟩
      (mkDaemon "test.pending" "go" 1700000000 3600) envLoadFails 3600
      (by decide) (by decide) (by decide)).2.2.2.2.2.2 rfl⟩

/-- C8: Every daemon dict the Scheduler builds for persistence carries the
fixed privileged run-as identity (root/wheel), the run-once flag set to
true, the exact policy-executor invocation argument list including the
(coerced) trigger name, and exactly one schedule variant — either the
`RunAtLoad` flag or a day/hour/minute calendar trigger — and the file path
it is persisted at is the fixed system directory plus `<label>` plus the
`.plist` extension. -/
theorem C8_record_invariants (e : Env) (d : Daemon)
    (h : (runPrompt e).record = some d) :
    d.userName = "root" ∧
    d.groupName = "wheel" ∧
    d.launchOnlyOnce = true ∧
    d.programArguments =
      ["/usr/local/bin/jamf", "policy", "-event", policy_trigger e.triggerArg] ∧
    ((d.runAtLoad = some true ∧ d.startCalendarInterval = none) ∨
     (d.runAtLoad = none ∧ ∃ c : CalendarInterval, d.startCalendarInterval = some c)) ∧
    ld_path e.labelArg = "/Library/LaunchDaemons/" ++ ld_label e.labelArg ++ ".plist" := by
  rcases runPrompt_record e d h with ⟨secs, -, rfl⟩
  rcases mkDaemon_fields e.labelArg (policy_trigger e.triggerArg) e.now secs with
    ⟨-, hu, hgr, ho, hpa, hsch⟩
  refine ⟨hu, hgr, ho, hpa, ?_, rfl⟩
  rcases hsch with ⟨-, hra, hsc⟩ | ⟨-, hra, hsc⟩
  · exact Or.inl ⟨hra, hsc⟩
  · exact Or.inr ⟨hra, ⟨_, hsc⟩⟩

/-- C6 (code bug): on the failing input — a blank label argument, which the
path computation coerces to the configured default — the persisted record
read back from disk carries the raw blank string as its `Label`, not the
coerced identity key `com.contoso.deferred-policy` that names the file, so
the round-trip does not reproduce the label identity key.  (For a non-blank
label the two coincide; the slip is `main` using `args.launchdaemon_label`
instead of the coerced `ld_label` when building the dict.) -/
theorem C6_roundtrip_label_mismatch :
    (runPrompt envBlankLabel).exitCode = 0 ∧
    ld_label envBlankLabel.labelArg = "com.contoso.deferred-policy" ∧
    Option.map Daemon.label (readBack (runPrompt envBlankLabel).file) = some "" ∧
    Option.map Daemon.label (readBack (runPrompt envBlankLabel).file) ≠
      some (ld_label envBlankLabel.labelArg) := by
  refine ⟨by decide, by decide, by decide, ?_⟩
  decide

theorem C8_record_invariants_witness :
    (mkDaemon "test.pending" "go" 1700000000 0).userName = "root" ∧
    (mkDaemon "test.pending" "go" 1700000000 0).launchOnlyOnce = true ∧
    ld_path "test.pending" = "/Library/LaunchDaemons/test.pending.plist" :=
  ⟨(C8_record_invariants envStartNow (mkDaemon "test.pending" "go" 1700000000 0)
      (by decide)).1,
   (C8_record_invariants envStartNow (mkDaemon "test.pending" "go" 1700000000 0)
      (by decide)).2.2.1,
   ((C8_record_invariants envStartNow (mkDaemon "test.pending" "go" 1700000000 0)
      (by decide)).2.2.2.2.2).trans (by decide)⟩

/-- C7 (counterexample): a prompt-mode run blocked by a guard condition — a
configured blocking application is running — exits 1, not 0, so "blocked by
guard condition" is not among the exit-0 benign no-ops the claim lists. -/
theorem C7_exit_codes_counterexample :
    (runMain Mode.prompt envBlocked).denial = some Reason.blocked_by_app ∧
    (runMain Mode.prompt envBlocked).exitCode ≠ 0 := by
  refine ⟨by decide, ?_⟩
  decide

/-- C7 (amended): the process exit code is always 0 or 1; it is 0 exactly on
prompt-mode success (all guards clear, the dialog decoded to a choice, all
persistence steps succeeded) or in cleanup mode, whose terminations —
including "nothing to clean up" and a logged failed deletion — are all
benign; it is 1 on any prompt-mode failure: guard denial (no session,
already deferred, or blocked by a guard condition), prompt failure, or
persistence failure. -/
theorem C7_exit_codes (m : Mode) (e : Env) :
    ((runMain m e).exitCode = 0 ∨ (runMain m e).exitCode = 1) ∧
    ((runMain m e).exitCode = 0 ↔
      (m = Mode.cleanup ∨
        (may_prompt e = none ∧
          (display_prompt e.promptTransportOk e.promptRaw).isSome = true ∧
          persistOk e = true))) := by
  cases m with
  | cleanup =>
      constructor
      · cases he : e.recordExists <;> cases hf : e.removeFails <;>
          simp [runMain, runCleanup, he, hf]
      · constructor
        · intro _; exact Or.inl rfl
        · intro _
          cases he : e.recordExists <;> cases hf : e.removeFails <;>
            simp [runMain, runCleanup, he, hf]
  | prompt =>
      simp only [runMain]
      cases hm : may_prompt e with
      | some r =>
          rcases runPrompt_denied e r hm with ⟨h1, -, -, -⟩
          rw [h1]
          simp [hm]
      | none =>
          rcases (may_prompt_none_iff e).1 hm with ⟨h1, h2, h3⟩
          rw [runPrompt_guards_ok e h1 h2 h3]
          cases hd : display_prompt e.promptTransportOk e.promptRaw with
          | none => simp
          | some secs =>
              have hw := write_success_iff
                ⟨e.writeOk, e.chmodOk, e.chownOk, e.loadOk⟩
                (mkDaemon e.labelArg (policy_trigger e.triggerArg) e.now secs)
              cases hp : persistOk e with
              | true =>
                  have hs : (write_launchdaemon
                      ⟨e.writeOk, e.chmodOk, e.chownOk, e.loadOk⟩
                      (mkDaemon e.labelArg (policy_trigger e.triggerArg)
                        e.now secs)).success = true := by
                    rw [hw]; exact hp
                  simp [hs]
              | false =>
                  have hs : (write_launchdaemon
                      ⟨e.writeOk, e.chmodOk, e.chownOk, e.loadOk⟩
                      (mkDaemon e.labelArg (policy_trigger e.triggerArg)
                        e.now secs)).success = false := by
                    rw [hw]; exact hp
                  simp [hs]

end BJPD
